import Mathlib

/-!
# go-api: error classification and response writing

A shallow embedding of `errors.go` and `responder.go`.

* A Go `error` interface value is a `GoError`: the nil interface, a `*HTTPErr`,
  a `*fmt.wrapError` (what `fmt.Errorf` with `%w` returns) or a user-defined
  error type described by its method set (`ErrMethods`).
* The `http.ResponseWriter` is a recording sink (`ResponseWriter`) with the
  checks of net/http: `WriteHeader` panics on a code outside 100..999 and
  `Write` refuses a body after a 1xx, 204 or 304 status. The logger sink is the
  list of emitted records; both are threaded explicitly (`State`).
* A call either returns or panics (`Outcome`); in both cases the effects that
  happened before are kept.
-/

namespace Api

/-! ## errors.go -/

/-- ErrorData is the inner object of the error body. -/
structure ErrorData where
  Message : String
  deriving DecidableEq, Repr

/-- ErrorResponse is the body of an error served up by `Err`. -/
structure ErrorResponse where
  RequestID : String
  Error : ErrorData
  deriving DecidableEq, Repr

def newErr (requestID msg : String) : ErrorResponse :=
  { RequestID := requestID, Error := { Message := msg } }

/-- Method set of a user-defined error type. `Error` is what `Error()` returns;
each other field is `some v` when the type has the method (so that the type
assertion to the interface succeeds) and the method returns `v`. -/
structure ErrMethods where
  Error : String
  StatusCode : Option Int
  NotFound : Option Bool
  Exists : Option Bool
  Conflict : Option Bool
  UserMessage : Option String
  deriving DecidableEq, Repr

/-- A value of the Go interface type `error`. -/
inductive GoError where
  /-- the nil interface value -/
  | nil
  /-- `&HTTPErr{error: wrapped, Code: Code}` -/
  | httpErr (wrapped : GoError) (Code : Int)
  /-- `*fmt.wrapError`: the message computed by `fmt.Errorf` and the wrapped error -/
  | wrapError (msg : String) (wrapped : GoError)
  /-- a user-defined error type -/
  | custom (m : ErrMethods)
  deriving DecidableEq, Repr

/-- NewHTTPErr generates a new HTTPErr. -/
def NewHTTPErr (err : GoError) (code : Int) : GoError :=
  .httpErr err code

namespace GoError

/-- Calling `Error()` on the value: `none` is a nil-dereference panic. An
`HTTPErr` has the method by promotion from its embedded `error`, so the call
is forwarded to the wrapped value. -/
def Error : GoError → Option String
  | .nil => none
  | .httpErr wrapped _ => wrapped.Error
  | .wrapError msg _ => some msg
  | .custom m => some m.Error

/-- Unwrap supports the Go 1.13 error semantics. -/
def Unwrap : GoError → GoError
  | .httpErr wrapped _ => wrapped
  | .wrapError _ wrapped => wrapped
  | _ => .nil

/-- The assertion `err.(HTTP)` followed by `StatusCode()`: `none` when the
dynamic type has no `StatusCode` method. -/
def asHTTP : GoError → Option Int
  | .httpErr _ code => some code
  | .custom m => m.StatusCode
  | _ => none

/-- The assertion `err.(NotFounder)` followed by `NotFound()`. -/
def asNotFounder : GoError → Option Bool
  | .custom m => m.NotFound
  | _ => none

/-- The assertion `err.(Exister)` followed by `Exists()`. -/
def asExister : GoError → Option Bool
  | .custom m => m.Exists
  | _ => none

/-- The assertion `err.(Conflicter)` followed by `Conflict()`. -/
def asConflicter : GoError → Option Bool
  | .custom m => m.Conflict
  | _ => none

/-- The assertion `err.(UserMessager)` followed by `UserMessage()`. -/
def asUserMessager : GoError → Option String
  | .custom m => m.UserMessage
  | _ => none

end GoError

/-- The error returned by `fmt.Errorf(pfx + "%w", cause)` for a non-nil
`cause` whose `Error()` returns. -/
def fmtErrorf (pfx : String) (cause : ErrMethods) : GoError :=
  .wrapError (pfx ++ cause.Error) (.custom cause)

/-! ## encoding/json on the payloads the responder sees -/

/-- A JSON document. -/
inductive Json where
  | null
  | str (s : String)
  | num (n : Int)
  | arr (items : List Json)
  | obj (fields : List (String × Json))
  deriving Repr

/-- The document for an `ErrorResponse`, keys taken from the struct tags. -/
def ErrorResponse.toJson (e : ErrorResponse) : Json :=
  .obj [("request_id", .str e.RequestID),
        ("error", .obj [("message", .str e.Error.Message)])]

/-- The `data any` argument of `With`. -/
inductive Payload where
  /-- the nil interface value -/
  | nil
  /-- an `ErrorResponse` value -/
  | errorResponse (e : ErrorResponse)
  /-- any other value that the encoder accepts, with its document -/
  | encodable (doc : Json)
  /-- any other value that the encoder rejects, with the encoder's error -/
  | unencodable (cause : ErrMethods)
  deriving Repr

/-- Result of `enc.Encode(data)` into the buffer: the document written, or the
error returned (nothing is written to the buffer then). A struct of two
strings always encodes. -/
def jsonEncode : Payload → Except ErrMethods Json
  | .nil => .ok .null
  | .errorResponse e => .ok e.toJson
  | .encodable doc => .ok doc
  | .unencodable cause => .error cause

/-- Contents of a `bytes.Buffer`: `none` is the empty buffer. -/
abbrev Buffer := Option Json

/-! ## Logger -/

inductive Level where
  | debug
  | error
  deriving DecidableEq, Repr

inductive LogValue where
  | str (s : String)
  | int (n : Int)
  | body (b : Buffer)
  deriving Repr

structure LogEntry where
  level : Level
  msg : String
  keyvals : List (String × LogValue)
  deriving Repr

/-- A `*logger.L`: the key/value pairs bound to it. -/
structure Logger where
  bound : List (String × LogValue)
  deriving Repr

namespace Logger

def With (l : Logger) (key : String) (val : LogValue) : Logger :=
  { bound := l.bound ++ [(key, val)] }

def Debug (l : Logger) (msg : String) (keyvals : List (String × LogValue)) : LogEntry :=
  { level := .debug, msg := msg, keyvals := l.bound ++ keyvals }

def Err (l : Logger) (msg : String) (keyvals : List (String × LogValue)) : LogEntry :=
  { level := .error, msg := msg, keyvals := l.bound ++ keyvals }

/-- LogError records an error value at error severity under the key "error". -/
def LogError (l : Logger) (msg : String) (err : GoError) : LogEntry :=
  { level := .error, msg := msg,
    keyvals := l.bound ++ [("error", .str (err.Error.getD ""))] }

end Logger

/-! ## Transport -/

/-- A recording `http.ResponseWriter`. `codes` are the status lines written by
`WriteHeader` in order, `body` the documents accepted by `Write`; `writeErr` is
the error the connection returns from `Write` (`none` for a sink that accepts
the bytes, such as the recorder of the test). -/
structure ResponseWriter where
  header : List (String × String)
  codes : List Int
  body : List Json
  writeErr : Option ErrMethods
  deriving Repr

/-- The net/http rule for which statuses may carry a body: none of 1xx, 204
and 304. -/
def bodyAllowedForStatus (status : Int) : Bool :=
  if 100 ≤ status ∧ status ≤ 199 then false
  else if status = 204 then false
  else if status = 304 then false
  else true

/-- The error `http.ErrBodyNotAllowed`. -/
def ErrBodyNotAllowed : ErrMethods :=
  { Error := "http: request method or response status code does not allow body",
    StatusCode := none, NotFound := none, Exists := none, Conflict := none,
    UserMessage := none }

namespace ResponseWriter

/-- The call `w.Header().Set(key, value)`. -/
def headerSet (w : ResponseWriter) (key value : String) : ResponseWriter :=
  { w with header := (key, value) :: w.header.filter (fun kv => kv.1 != key) }

/-- The call `w.Header().Get(key)`. -/
def headerGet (w : ResponseWriter) (key : String) : Option String :=
  (w.header.find? (fun kv => kv.1 == key)).map (·.2)

/-- The call `w.WriteHeader(status)`: `none` is the panic of net/http on a code
that is not a three-digit status ("invalid WriteHeader code"). -/
def WriteHeader (w : ResponseWriter) (status : Int) : Option ResponseWriter :=
  if status < 100 ∨ status > 999 then none
  else some { w with codes := w.codes ++ [status] }

/-- The call `w.Write(bytes)` with the bytes of one document. Without a status
line the status 200 is written first; after a status that allows no body the
bytes are refused with `http.ErrBodyNotAllowed`; otherwise the connection
decides. -/
def Write (w : ResponseWriter) (doc : Json) : ResponseWriter × Option ErrMethods :=
  match w.codes.getLast? with
  | none =>
    match w.writeErr with
    | none => ({ w with codes := [200], body := w.body ++ [doc] }, none)
    | some e => ({ w with codes := [200] }, some e)
  | some status =>
    if bodyAllowedForStatus status then
      match w.writeErr with
      | none => ({ w with body := w.body ++ [doc] }, none)
      | some e => (w, some e)
    else (w, some ErrBodyNotAllowed)

/-- The call `io.Copy(w, &buf)`: an empty buffer makes no `Write` call. -/
def ioCopy (w : ResponseWriter) (buf : Buffer) : ResponseWriter × Option ErrMethods :=
  match buf with
  | none => (w, none)
  | some doc => w.Write doc

end ResponseWriter

/-! ## responder.go -/

/-- The part of `context.Context` the extractors read. -/
structure Context where
  values : List (String × String)
  deriving DecidableEq, Repr

/-- RequestIDFunc retrieves the request ID from a context; `none` is the nil
function value. -/
abbrev RequestIDFunc := Option (Context → String)

/-- ClientIPFunc retrieves the client IP from a context; `none` is the nil
function value. -/
abbrev ClientIPFunc := Option (Context → String)

/-- The parts of `*http.Request` the responder reads. -/
structure Request where
  Method : String
  Path : String
  Query : String
  ctx : Context
  deriving DecidableEq, Repr

/-- Responder writes API responses. -/
structure Responder where
  log : Logger
  logResponseBody : Bool
  requestIDFunc : RequestIDFunc
  clientIPFunc : ClientIPFunc

structure options where
  logResponseBodies : Bool
  requestIDFunc : RequestIDFunc
  clientIPFunc : ClientIPFunc

/-- ResponderOption is used to customize the API responder. -/
abbrev ResponderOption := options → options

/-- WithLogResponseBodies enables the logging of response bodies. -/
def WithLogResponseBodies (enabled : Bool) : ResponderOption :=
  fun o => { o with logResponseBodies := enabled }

/-- WithRequestIDFunc sets the function to retrieve the request ID. -/
def WithRequestIDFunc (fn : RequestIDFunc) : ResponderOption :=
  fun o =>
    match fn with
    | none => o
    | some f => { o with requestIDFunc := some f }

/-- WithClientIPFunc sets the function to retrieve the client IP. -/
def WithClientIPFunc (fn : ClientIPFunc) : ResponderOption :=
  fun o =>
    match fn with
    | none => o
    | some f => { o with clientIPFunc := some f }

/-- NewResponder makes a new Responder object. -/
def NewResponder (logger : Logger) (opts : List ResponderOption) : Responder :=
  let o : options :=
    opts.foldl (fun o opt => opt o)
      { logResponseBodies := false,
        requestIDFunc := some (fun _ => ""),
        clientIPFunc := some (fun _ => "") }
  { log := logger,
    logResponseBody := o.logResponseBodies,
    requestIDFunc := o.requestIDFunc,
    clientIPFunc := o.clientIPFunc }

/-- The transport and the log sink. -/
structure State where
  w : ResponseWriter
  log : List LogEntry
  deriving Repr

/-- How a call ended, with the effects it had. -/
inductive Outcome where
  | returned (s : State)
  | panicked (s : State)
  deriving Repr

namespace Outcome

def state : Outcome → State
  | .returned s => s
  | .panicked s => s

def isPanicked : Outcome → Bool
  | .returned _ => false
  | .panicked _ => true

/-- Append a log record, keeping how the call ended. -/
def emit : Outcome → LogEntry → Outcome
  | .returned s, e => .returned { s with log := s.log ++ [e] }
  | .panicked s, e => .panicked { s with log := s.log ++ [e] }

end Outcome

def StatusNotFound : Int := 404
def StatusUnprocessableEntity : Int := 422
def StatusInternalServerError : Int := 500

/-- The first step of `With`: `buf` after the encoding, or the error of
`enc.Encode(data)`. The encoder is not run on the nil payload. -/
def encodeData (data : Payload) : Except ErrMethods Buffer :=
  match data with
  | .nil => .ok none
  | d =>
    match jsonEncode d with
    | .ok doc => .ok (some doc)
    | .error e => .error e

/-- The last step of `With`, once `buf` is filled and the request ID is known:
the debug record, the header, the status line and the copy of `buf` to the
client. A panic of `WriteHeader` ends the call after the debug record and the
header; a failed copy is logged and nothing else. -/
def writeResponse (r : Responder) (s : State) (reqID : String) (status : Int)
    (buf : Buffer) : Outcome :=
  let log := r.log.With "request_id" (.str reqID)
  let entry :=
    if r.logResponseBody then
      log.Debug "api_response" [("status", .int status), ("body", .body buf)]
    else
      log.Debug "api_response" [("status", .int status)]
  let w1 := s.w.headerSet "Content-Type" "application/json; charset=utf-8"
  match w1.WriteHeader status with
  | none => .panicked { w := w1, log := s.log ++ [entry] }
  | some w2 =>
    match w2.ioCopy buf with
    | (w3, some e) =>
      .returned
        { w := w3,
          log := s.log ++ [entry,
            log.LogError "api_response_copy_error"
              (fmtErrorf "failed to copy response bytes: " e)] }
    | (w3, none) => .returned { w := w3, log := s.log ++ [entry] }

/-- The deferred function of `Err`, run on the outcome `out` of the function
body (also when the body panicked) with the final value of `logMsg`. The
arguments of `r.log.Err` are evaluated in order, so `err.Error()` is called
before `r.clientIPFunc`. -/
def deferredLog (r : Responder) (req : Request) (err : GoError) (reqID : String)
    (out : Outcome) (logMsg : Bool) : Outcome :=
  if logMsg then
    match err.Error with
    | none => .panicked out.state
    | some text =>
      match r.clientIPFunc with
      | none => .panicked out.state
      | some ipf =>
        out.emit
          (r.log.Err "api_response_error"
            [("method", .str req.Method),
             ("path", .str req.Path),
             ("query", .str req.Query),
             ("error", .str text),
             ("client_ip", .str (ipf req.ctx)),
             ("request_id", .str reqID)])
  else out

/-- Number of nested calls a `With` on this payload still makes: when the
encoder rejects the payload, `With` calls `Err`, which calls `With` on an
envelope. -/
def Payload.depth (data : Payload) : Nat :=
  match encodeData data with
  | .error _ => 2
  | .ok _ => 0

mutual

/-- With responds with the specified data. -/
def With (r : Responder) (s : State) (req : Request) (status : Int) (data : Payload) : Outcome :=
  match h : encodeData data with
  | .error e =>
    Err r s req (fmtErrorf "failed to encode response object: " e)
  | .ok buf =>
    match r.requestIDFunc with
    | none => .panicked s
    | some idf => writeResponse r s (idf req.ctx) status buf
termination_by data.depth
decreasing_by
  simp_wf
  simp [Payload.depth, h]

/-- Err responds with an error that corresponds to the behavior the type is illustrating. -/
def Err (r : Responder) (s : State) (req : Request) (err : GoError) : Outcome :=
  match r.requestIDFunc with
  | none => .panicked s
  | some idf =>
    let reqID := idf req.ctx
    let run : Outcome × Bool :=
      match err.asHTTP with
      | some code =>
        match err.Error with
        | none => (.panicked s, true)
        | some text => (With r s req code (.errorResponse (newErr reqID text)), true)
      | none =>
        if err.asNotFounder = some true then
          (With r s req StatusNotFound
            (.errorResponse (newErr reqID "resource not found")), false)
        else if err.asExister = some true then
          (With r s req StatusUnprocessableEntity
            (.errorResponse (newErr reqID "resource exists")), false)
        else if err.asConflicter = some true then
          (With r s req StatusUnprocessableEntity
            (.errorResponse (newErr reqID "unprocessible entity")), false)
        else
          (With r s req StatusInternalServerError
            (.errorResponse (newErr reqID "internal server error")), true)
    deferredLog r req err reqID run.1 run.2
termination_by 1
decreasing_by all_goals simp_wf; all_goals simp [Payload.depth, encodeData, jsonEncode]

end

/-! ## Observations of one call -/

namespace Outcome

/-- The status lines the call wrote, given the state it started from. -/
def statusLines (o : Outcome) (s : State) : List Int :=
  o.state.w.codes.drop s.w.codes.length

/-- The documents the call wrote to the client. -/
def written (o : Outcome) (s : State) : List Json :=
  o.state.w.body.drop s.w.body.length

/-- The log records the call emitted. -/
def emitted (o : Outcome) (s : State) : List LogEntry :=
  o.state.log.drop s.log.length

/-- The error-severity log records the call emitted. -/
def errorEntries (o : Outcome) (s : State) : List LogEntry :=
  (o.emitted s).filter (fun e => e.level == .error)

/-- The Content-Type of the response. -/
def contentType (o : Outcome) : Option String :=
  o.state.w.headerGet "Content-Type"

end Outcome

/-- Member `key` of a JSON object. -/
def Json.get (j : Json) (key : String) : Option Json :=
  match j with
  | .obj fields => (fields.find? (fun kv => kv.1 == key)).map (·.2)
  | _ => none

/-- The `error.message` of a response body, as a client decodes it. -/
def envelopeMessage (doc : Json) : Option String :=
  match doc.get "error" with
  | some e =>
    match e.get "message" with
    | some (.str m) => some m
    | _ => none
  | none => none

/-- The `request_id` of a response body, as a client decodes it. -/
def envelopeRequestID (doc : Json) : Option String :=
  match doc.get "request_id" with
  | some (.str id) => some id
  | _ => none

/-- The error record of the deferred block of `Err`. -/
def apiResponseError (r : Responder) (req : Request) (text clientIP reqID : String) : LogEntry :=
  r.log.Err "api_response_error"
    [("method", .str req.Method),
     ("path", .str req.Path),
     ("query", .str req.Query),
     ("error", .str text),
     ("client_ip", .str clientIP),
     ("request_id", .str reqID)]

/-- An option that one of the three exported constructors builds. -/
def ResponderOption.provided (opt : ResponderOption) : Prop :=
  (∃ enabled, opt = WithLogResponseBodies enabled) ∨
  (∃ fn, opt = WithRequestIDFunc fn) ∨
  (∃ fn, opt = WithClientIPFunc fn)

/-- An option that leaves the request-ID extractor as it is: any of the
provided options other than `WithRequestIDFunc` with a function. -/
def ResponderOption.keepsRequestID (opt : ResponderOption) : Prop :=
  (∃ enabled, opt = WithLogResponseBodies enabled) ∨
  opt = WithRequestIDFunc none ∨
  (∃ fn, opt = WithClientIPFunc fn)

/-! ## Values of responder_test.go -/

/-- The error type `notFounder`: `Error` and `NotFound`. -/
def notFounder : GoError :=
  .custom { Error := "not found", StatusCode := none, NotFound := some true,
            Exists := none, Conflict := none, UserMessage := none }

/-- The error type `notFounderMessage`: `Error`, `UserMessage` and `NotFound`. -/
def notFounderMessage : GoError :=
  .custom { Error := "not found", StatusCode := none, NotFound := some true,
            Exists := none, Conflict := none,
            UserMessage := some "not found custom message" }

/-- The responder of the test: `NewResponder(logger.Default())`. -/
def testResponder : Responder := NewResponder { bound := [] } []

/-- A fresh response sink, as `httptest.NewRecorder()`, and an empty log. -/
def testState : State :=
  { w := { header := [], codes := [], body := [], writeErr := none }, log := [] }

/-- The request of the test: `GET /`. -/
def testRequest : Request :=
  { Method := "GET", Path := "/", Query := "", ctx := { values := [] } }

/-! ## Further sample values -/

/-- A user-defined error type with every capability: status 418 and all three
boolean capabilities reporting true. -/
def teapotErr : GoError :=
  .custom { Error := "short and stout", StatusCode := some 418, NotFound := some true,
            Exists := some true, Conflict := some true,
            UserMessage := some "tip me over" }

/-- An error with no capability, as `errors.New` returns. -/
def plainErr : GoError :=
  .custom { Error := "dial tcp 10.0.0.7:5432: connection refused", StatusCode := none,
            NotFound := none, Exists := none, Conflict := none, UserMessage := none }

/-- An error whose only capability is Conflict, reporting true. -/
def conflictErr : GoError :=
  .custom { Error := "version mismatch", StatusCode := none, NotFound := none,
            Exists := none, Conflict := some true, UserMessage := none }

/-- An error reporting both Exists and Conflict. -/
def existsConflictErr : GoError :=
  .custom { Error := "duplicate key", StatusCode := none, NotFound := some false,
            Exists := some true, Conflict := some true, UserMessage := none }

/-- The error `NewHTTPErr(err, 0)`: a status-carrying error whose code is not an
HTTP status. -/
def zeroCodeErr : GoError := NewHTTPErr plainErr 0

/-- The error `NewHTTPErr(err, 204)`: a status-carrying error whose status
allows no body. -/
def noContentErr : GoError := NewHTTPErr plainErr 204

/-- A responder with a request-ID extractor reading the context. -/
def tracingResponder : Responder :=
  NewResponder { bound := [] }
    [WithRequestIDFunc (some (fun ctx => (ctx.values.lookup "request_id").getD "")),
     WithLogResponseBodies true]

/-- A request carrying a request ID in its context. -/
def tracedRequest : Request :=
  { Method := "POST", Path := "/widgets", Query := "dry_run=1",
    ctx := { values := [("request_id", "req-42")] } }

/-- The encoder's error for a channel value. -/
def unsupportedType : ErrMethods :=
  { Error := "json: unsupported type: chan int", StatusCode := some 400,
    NotFound := some true, Exists := none, Conflict := none, UserMessage := none }

/-! ## Unfolding lemmas -/

theorem With_of_ok (r : Responder) (s : State) (req : Request) (status : Int)
    (data : Payload) (buf : Buffer) (idf : Context → String)
    (henc : encodeData data = .ok buf) (hid : r.requestIDFunc = some idf) :
    With r s req status data = writeResponse r s (idf req.ctx) status buf := by
  rw [With]
  split
  · rename_i e he
    rw [henc] at he
    cases he
  · rename_i b hb
    rw [henc] at hb
    cases hb
    simp [hid]

theorem With_of_error (r : Responder) (s : State) (req : Request) (status : Int)
    (data : Payload) (e : ErrMethods) (henc : encodeData data = .error e) :
    With r s req status data
      = Err r s req (fmtErrorf "failed to encode response object: " e) := by
  rw [With]
  split
  · rename_i e2 he
    rw [henc] at he
    cases he
    rfl
  · rename_i b hb
    rw [henc] at hb
    cases hb

theorem encodeData_errorResponse (e : ErrorResponse) :
    encodeData (.errorResponse e) = .ok (some e.toJson) := by
  simp [encodeData, jsonEncode]

theorem With_envelope (r : Responder) (s : State) (req : Request) (status : Int)
    (e : ErrorResponse) (idf : Context → String) (hid : r.requestIDFunc = some idf) :
    With r s req status (.errorResponse e)
      = writeResponse r s (idf req.ctx) status (some e.toJson) :=
  With_of_ok r s req status _ _ idf (encodeData_errorResponse e) hid

theorem Err_nil_func (r : Responder) (s : State) (req : Request) (err : GoError)
    (hid : r.requestIDFunc = none) : Err r s req err = .panicked s := by
  rw [Err]
  simp [hid]

theorem Err_http (r : Responder) (s : State) (req : Request) (err : GoError)
    (idf : Context → String) (code : Int) (text : String)
    (hid : r.requestIDFunc = some idf) (hc : err.asHTTP = some code)
    (ht : err.Error = some text) :
    Err r s req err
      = deferredLog r req err (idf req.ctx)
          (writeResponse r s (idf req.ctx) code
            (some (newErr (idf req.ctx) text).toJson)) true := by
  rw [Err]
  simp [hid, hc, ht, With_envelope r s req _ _ idf hid]

theorem Err_http_panic (r : Responder) (s : State) (req : Request) (err : GoError)
    (idf : Context → String) (code : Int)
    (hid : r.requestIDFunc = some idf) (hc : err.asHTTP = some code)
    (ht : err.Error = none) :
    Err r s req err = .panicked s := by
  rw [Err]
  simp [hid, hc, ht, deferredLog, Outcome.state]

theorem Err_notFound (r : Responder) (s : State) (req : Request) (err : GoError)
    (idf : Context → String)
    (hid : r.requestIDFunc = some idf) (hc : err.asHTTP = none)
    (hnf : err.asNotFounder = some true) :
    Err r s req err
      = writeResponse r s (idf req.ctx) 404
          (some (newErr (idf req.ctx) "resource not found").toJson) := by
  rw [Err]
  simp [hid, hc, hnf, With_envelope r s req _ _ idf hid, deferredLog, StatusNotFound]

theorem Err_exists (r : Responder) (s : State) (req : Request) (err : GoError)
    (idf : Context → String)
    (hid : r.requestIDFunc = some idf) (hc : err.asHTTP = none)
    (hnf : err.asNotFounder ≠ some true) (hex : err.asExister = some true) :
    Err r s req err
      = writeResponse r s (idf req.ctx) 422
          (some (newErr (idf req.ctx) "resource exists").toJson) := by
  rw [Err]
  simp [hid, hc, hnf, hex, With_envelope r s req _ _ idf hid, deferredLog,
    StatusUnprocessableEntity]

theorem Err_conflict (r : Responder) (s : State) (req : Request) (err : GoError)
    (idf : Context → String)
    (hid : r.requestIDFunc = some idf) (hc : err.asHTTP = none)
    (hnf : err.asNotFounder ≠ some true) (hex : err.asExister ≠ some true)
    (hcf : err.asConflicter = some true) :
    Err r s req err
      = writeResponse r s (idf req.ctx) 422
          (some (newErr (idf req.ctx) "unprocessible entity").toJson) := by
  rw [Err]
  simp [hid, hc, hnf, hex, hcf, With_envelope r s req _ _ idf hid, deferredLog,
    StatusUnprocessableEntity]

theorem Err_fallback (r : Responder) (s : State) (req : Request) (err : GoError)
    (idf : Context → String)
    (hid : r.requestIDFunc = some idf) (hc : err.asHTTP = none)
    (hnf : err.asNotFounder ≠ some true) (hex : err.asExister ≠ some true)
    (hcf : err.asConflicter ≠ some true) :
    Err r s req err
      = deferredLog r req err (idf req.ctx)
          (writeResponse r s (idf req.ctx) 500
            (some (newErr (idf req.ctx) "internal server error").toJson)) true := by
  rw [Err]
  simp [hid, hc, hnf, hex, hcf, With_envelope r s req _ _ idf hid,
    StatusInternalServerError]

/-! ### What `writeResponse` does to the transport and the log -/

theorem WriteHeader_valid (w : ResponseWriter) (status : Int)
    (h1 : 100 ≤ status) (h2 : status ≤ 999) :
    w.WriteHeader status = some { w with codes := w.codes ++ [status] } := by
  have h : ¬ (status < 100 ∨ status > 999) := by omega
  simp [ResponseWriter.WriteHeader, h]

theorem WriteHeader_invalid (w : ResponseWriter) (status : Int)
    (h : status < 100 ∨ status > 999) : w.WriteHeader status = none := by
  simp [ResponseWriter.WriteHeader, h]

theorem writeResponse_isPanicked (r : Responder) (s : State) (reqID : String)
    (status : Int) (buf : Buffer) (h1 : 100 ≤ status) (h2 : status ≤ 999) :
    (writeResponse r s reqID status buf).isPanicked = false := by
  unfold writeResponse
  simp only [WriteHeader_valid _ status h1 h2]
  split <;> rfl

theorem writeResponse_invalid (r : Responder) (s : State) (reqID : String)
    (status : Int) (buf : Buffer) (h : status < 100 ∨ status > 999) :
    (writeResponse r s reqID status buf).isPanicked = true ∧
    (writeResponse r s reqID status buf).state.w.codes = s.w.codes ∧
    (writeResponse r s reqID status buf).state.w.body = s.w.body := by
  unfold writeResponse
  simp only [WriteHeader_invalid _ status h]
  exact ⟨rfl, rfl, rfl⟩

theorem writeResponse_codes (r : Responder) (s : State) (reqID : String) (status : Int)
    (buf : Buffer) (h1 : 100 ≤ status) (h2 : status ≤ 999) :
    (writeResponse r s reqID status buf).state.w.codes = s.w.codes ++ [status] := by
  unfold writeResponse
  simp only [WriteHeader_valid _ status h1 h2]
  cases buf with
  | none => simp [ResponseWriter.ioCopy, ResponseWriter.headerSet, Outcome.state]
  | some doc =>
    cases hb : bodyAllowedForStatus status <;> cases hw : s.w.writeErr <;>
      simp [ResponseWriter.ioCopy, ResponseWriter.Write, ResponseWriter.headerSet,
        Outcome.state, List.getLast?_concat, hb, hw]

theorem writeResponse_header (r : Responder) (s : State) (reqID : String) (status : Int)
    (buf : Buffer) :
    (writeResponse r s reqID status buf).state.w.headerGet "Content-Type"
      = some "application/json; charset=utf-8" := by
  unfold writeResponse
  by_cases h : status < 100 ∨ status > 999
  · simp [WriteHeader_invalid _ status h, Outcome.state, ResponseWriter.headerSet,
      ResponseWriter.headerGet]
  · have h1 : 100 ≤ status := by omega
    have h2 : status ≤ 999 := by omega
    simp only [WriteHeader_valid _ status h1 h2]
    cases buf with
    | none =>
      simp [ResponseWriter.ioCopy, ResponseWriter.headerSet, ResponseWriter.headerGet,
        Outcome.state]
    | some doc =>
      cases hb : bodyAllowedForStatus status <;> cases hw : s.w.writeErr <;>
        simp [ResponseWriter.ioCopy, ResponseWriter.Write, ResponseWriter.headerSet,
          ResponseWriter.headerGet, Outcome.state, List.getLast?_concat, hb, hw]

theorem writeResponse_body (r : Responder) (s : State) (reqID : String) (status : Int)
    (doc : Json) (h1 : 100 ≤ status) (h2 : status ≤ 999)
    (hb : bodyAllowedForStatus status = true) (hw : s.w.writeErr = none) :
    (writeResponse r s reqID status (some doc)).state.w.body = s.w.body ++ [doc] := by
  unfold writeResponse
  simp only [WriteHeader_valid _ status h1 h2]
  simp [ResponseWriter.ioCopy, ResponseWriter.Write, ResponseWriter.headerSet,
    Outcome.state, List.getLast?_concat, hb, hw]

theorem writeResponse_body_empty (r : Responder) (s : State) (reqID : String)
    (status : Int) :
    (writeResponse r s reqID status none).state.w.body = s.w.body := by
  unfold writeResponse
  by_cases h : status < 100 ∨ status > 999
  · simp [WriteHeader_invalid _ status h, Outcome.state, ResponseWriter.headerSet]
  · have h1 : 100 ≤ status := by omega
    have h2 : status ≤ 999 := by omega
    simp only [WriteHeader_valid _ status h1 h2]
    simp [ResponseWriter.ioCopy, ResponseWriter.headerSet, Outcome.state]

theorem writeResponse_body_cases (r : Responder) (s : State) (reqID : String)
    (status : Int) (doc : Json) :
    (writeResponse r s reqID status (some doc)).state.w.body = s.w.body ++ [doc] ∨
    (writeResponse r s reqID status (some doc)).state.w.body = s.w.body := by
  by_cases h : status < 100 ∨ status > 999
  · exact Or.inr (writeResponse_invalid r s reqID status _ h).2.2
  · have h1 : 100 ≤ status := by omega
    have h2 : status ≤ 999 := by omega
    unfold writeResponse
    simp only [WriteHeader_valid _ status h1 h2]
    cases hb : bodyAllowedForStatus status <;> cases hw : s.w.writeErr <;>
      simp [ResponseWriter.ioCopy, ResponseWriter.Write, ResponseWriter.headerSet,
        Outcome.state, List.getLast?_concat, hb, hw]

theorem writeResponse_log (r : Responder) (s : State) (reqID : String) (status : Int)
    (buf : Buffer) (h1 : 100 ≤ status) (h2 : status ≤ 999)
    (hb : bodyAllowedForStatus status = true) (hw : s.w.writeErr = none) :
    ∃ entry : LogEntry, entry.level = .debug ∧
      (writeResponse r s reqID status buf).state.log = s.log ++ [entry] := by
  unfold writeResponse
  simp only [WriteHeader_valid _ status h1 h2]
  cases buf <;> cases hl : r.logResponseBody <;>
    simp [ResponseWriter.ioCopy, ResponseWriter.Write, ResponseWriter.headerSet,
      Outcome.state, List.getLast?_concat, hb, hw, hl, Logger.Debug]

theorem writeResponse_log_empty (r : Responder) (s : State) (reqID : String)
    (status : Int) (h1 : 100 ≤ status) (h2 : status ≤ 999) :
    ∃ entry : LogEntry, entry.level = .debug ∧
      (writeResponse r s reqID status none).state.log = s.log ++ [entry] := by
  unfold writeResponse
  simp only [WriteHeader_valid _ status h1 h2]
  cases hl : r.logResponseBody <;>
    simp [ResponseWriter.ioCopy, ResponseWriter.headerSet, Outcome.state, hl, Logger.Debug]

/-! ### Observations of an outcome -/

theorem emit_state_w (o : Outcome) (e : LogEntry) : (o.emit e).state.w = o.state.w := by
  cases o <;> rfl

theorem emit_state_log (o : Outcome) (e : LogEntry) :
    (o.emit e).state.log = o.state.log ++ [e] := by
  cases o <;> rfl

theorem emit_isPanicked (o : Outcome) (e : LogEntry) :
    (o.emit e).isPanicked = o.isPanicked := by
  cases o <;> rfl

theorem statusLines_of_transport (o : Outcome) (r : Responder) (s : State)
    (reqID : String) (status : Int) (buf : Buffer)
    (h1 : 100 ≤ status) (h2 : status ≤ 999)
    (h : o.state.w = (writeResponse r s reqID status buf).state.w) :
    o.statusLines s = [status] := by
  simp [Outcome.statusLines, h, writeResponse_codes r s reqID status buf h1 h2]

theorem contentType_of_transport (o : Outcome) (r : Responder) (s : State)
    (reqID : String) (status : Int) (buf : Buffer)
    (h : o.state.w = (writeResponse r s reqID status buf).state.w) :
    o.contentType = some "application/json; charset=utf-8" := by
  simp [Outcome.contentType, h, writeResponse_header]

theorem written_of_transport (o : Outcome) (r : Responder) (s : State)
    (reqID : String) (status : Int) (doc : Json)
    (h : o.state.w = (writeResponse r s reqID status (some doc)).state.w) :
    o.written s = [doc] ∨ o.written s = [] := by
  rcases writeResponse_body_cases r s reqID status doc with hb | hb
  · left; simp [Outcome.written, h, hb]
  · right; simp [Outcome.written, h, hb]

theorem written_of_transport_accepting (o : Outcome) (r : Responder) (s : State)
    (reqID : String) (status : Int) (doc : Json)
    (h1 : 100 ≤ status) (h2 : status ≤ 999)
    (hb : bodyAllowedForStatus status = true) (hw : s.w.writeErr = none)
    (h : o.state.w = (writeResponse r s reqID status (some doc)).state.w) :
    o.written s = [doc] := by
  simp [Outcome.written, h, writeResponse_body r s reqID status doc h1 h2 hb hw]

theorem written_of_transport_empty (o : Outcome) (r : Responder) (s : State)
    (reqID : String) (status : Int)
    (h : o.state.w = (writeResponse r s reqID status none).state.w) :
    o.written s = [] := by
  simp [Outcome.written, h, writeResponse_body_empty]

theorem errorEntries_of_log (o : Outcome) (s : State) (entry : LogEntry)
    (hlevel : entry.level = .debug) (hlog : o.state.log = s.log ++ [entry]) :
    o.errorEntries s = [] := by
  simp [Outcome.errorEntries, Outcome.emitted, hlog, hlevel]

theorem errorEntries_of_log_emit (o : Outcome) (s : State) (entry e : LogEntry)
    (hlevel : entry.level = .debug) (he : e.level = .error)
    (hlog : o.state.log = s.log ++ [entry] ++ [e]) :
    o.errorEntries s = [e] := by
  simp [Outcome.errorEntries, Outcome.emitted, hlog, hlevel, he, List.append_assoc]

theorem envelopeMessage_toJson (e : ErrorResponse) :
    envelopeMessage e.toJson = some e.Error.Message := by
  simp [envelopeMessage, ErrorResponse.toJson, Json.get]

theorem envelopeRequestID_toJson (e : ErrorResponse) :
    envelopeRequestID e.toJson = some e.RequestID := by
  simp [envelopeRequestID, ErrorResponse.toJson, Json.get]

/-! ### The deferred block -/

theorem deferredLog_emit (r : Responder) (req : Request) (err : GoError)
    (reqID text : String) (ipf : Context → String) (out : Outcome)
    (ht : err.Error = some text) (hip : r.clientIPFunc = some ipf) :
    deferredLog r req err reqID out true
      = out.emit (apiResponseError r req text (ipf req.ctx) reqID) := by
  simp [deferredLog, ht, hip, apiResponseError]

theorem deferredLog_state_w (r : Responder) (req : Request) (err : GoError)
    (reqID : String) (out : Outcome) (logMsg : Bool) :
    (deferredLog r req err reqID out logMsg).state.w = out.state.w := by
  unfold deferredLog
  cases logMsg
  · simp
  · cases err.Error with
    | none => simp [Outcome.state]
    | some text =>
      cases r.clientIPFunc with
      | none => simp [Outcome.state]
      | some ipf => simp [emit_state_w]

theorem deferredLog_congr (r : Responder) (req : Request) (e1 e2 : GoError)
    (reqID : String) (out : Outcome) (logMsg : Bool) (h : e1.Error = e2.Error) :
    deferredLog r req e1 reqID out logMsg = deferredLog r req e2 reqID out logMsg := by
  unfold deferredLog
  rw [h]

theorem apiResponseError_level (r : Responder) (req : Request)
    (text clientIP reqID : String) :
    (apiResponseError r req text clientIP reqID).level = .error := rfl

/-- The observations of a call that wrote an envelope with a status the sink
takes with a body and then logged the error record. -/
theorem observe_logged (r : Responder) (s : State) (req : Request)
    (reqID text clientIP : String) (status : Int) (doc : Json)
    (h1 : 100 ≤ status) (h2 : status ≤ 999)
    (hb : bodyAllowedForStatus status = true) (hw : s.w.writeErr = none) :
    ((writeResponse r s reqID status (some doc)).emit
        (apiResponseError r req text clientIP reqID)).isPanicked = false ∧
    ((writeResponse r s reqID status (some doc)).emit
        (apiResponseError r req text clientIP reqID)).statusLines s = [status] ∧
    ((writeResponse r s reqID status (some doc)).emit
        (apiResponseError r req text clientIP reqID)).written s = [doc] ∧
    ((writeResponse r s reqID status (some doc)).emit
        (apiResponseError r req text clientIP reqID)).errorEntries s
      = [apiResponseError r req text clientIP reqID] := by
  refine ⟨?_, ?_, ?_, ?_⟩
  · rw [emit_isPanicked]
    exact writeResponse_isPanicked r s reqID status _ h1 h2
  · exact statusLines_of_transport _ r s reqID status _ h1 h2 (emit_state_w _ _)
  · exact written_of_transport_accepting _ r s reqID status doc h1 h2 hb hw
      (emit_state_w _ _)
  · obtain ⟨entry, hlevel, hlog⟩ := writeResponse_log r s reqID status (some doc) h1 h2 hb hw
    exact errorEntries_of_log_emit _ s entry _ hlevel (apiResponseError_level _ _ _ _ _)
      (by rw [emit_state_log, hlog])

/-- The observations of a call that wrote an envelope with a status the sink
takes with a body and logged no error record. -/
theorem observe_quiet (r : Responder) (s : State) (reqID : String) (status : Int)
    (doc : Json) (h1 : 100 ≤ status) (h2 : status ≤ 999)
    (hb : bodyAllowedForStatus status = true) (hw : s.w.writeErr = none) :
    (writeResponse r s reqID status (some doc)).isPanicked = false ∧
    (writeResponse r s reqID status (some doc)).statusLines s = [status] ∧
    (writeResponse r s reqID status (some doc)).written s = [doc] ∧
    (writeResponse r s reqID status (some doc)).errorEntries s = [] := by
  refine ⟨writeResponse_isPanicked r s reqID status _ h1 h2,
    statusLines_of_transport _ r s reqID status _ h1 h2 rfl,
    written_of_transport_accepting _ r s reqID status doc h1 h2 hb hw rfl, ?_⟩
  obtain ⟨entry, hlevel, hlog⟩ := writeResponse_log r s reqID status (some doc) h1 h2 hb hw
  exact errorEntries_of_log _ s entry hlevel hlog

/-! ### Every call of `Err`, whatever the error -/

/-- With a request-ID extractor, the transport after `Err` is either untouched
(the call panicked before the write step) or the one after the write step on an
envelope carrying the extracted request ID. -/
theorem Err_transport (r : Responder) (s : State) (req : Request) (err : GoError)
    (idf : Context → String) (hid : r.requestIDFunc = some idf) :
    (Err r s req err).state.w = s.w ∨
    ∃ (status : Int) (msg : String),
      (Err r s req err).state.w
        = (writeResponse r s (idf req.ctx) status
            (some (newErr (idf req.ctx) msg).toJson)).state.w := by
  cases hc : err.asHTTP with
  | some code =>
    cases ht : err.Error with
    | none =>
      left
      rw [Err_http_panic r s req err idf code hid hc ht]
      rfl
    | some text =>
      right
      refine ⟨code, text, ?_⟩
      rw [Err_http r s req err idf code text hid hc ht, deferredLog_state_w]
  | none =>
    right
    by_cases hnf : err.asNotFounder = some true
    · exact ⟨404, "resource not found", by rw [Err_notFound r s req err idf hid hc hnf]⟩
    · by_cases hex : err.asExister = some true
      · exact ⟨422, "resource exists", by rw [Err_exists r s req err idf hid hc hnf hex]⟩
      · by_cases hcf : err.asConflicter = some true
        · exact ⟨422, "unprocessible entity",
            by rw [Err_conflict r s req err idf hid hc hnf hex hcf]⟩
        · refine ⟨500, "internal server error", ?_⟩
          rw [Err_fallback r s req err idf hid hc hnf hex hcf, deferredLog_state_w]

/-- When `Error()` returns, `Err` reaches the write step, with the error's own
status code or with one of 404, 422 and 500. -/
theorem Err_transport_of_text (r : Responder) (s : State) (req : Request) (err : GoError)
    (idf : Context → String) (text : String)
    (hid : r.requestIDFunc = some idf) (ht : err.Error = some text) :
    ∃ (status : Int) (msg : String),
      (err.asHTTP = some status ∨
        (100 ≤ status ∧ status ≤ 999 ∧ bodyAllowedForStatus status = true)) ∧
      (Err r s req err).state.w
        = (writeResponse r s (idf req.ctx) status
            (some (newErr (idf req.ctx) msg).toJson)).state.w := by
  cases hc : err.asHTTP with
  | some code =>
    refine ⟨code, text, Or.inl rfl, ?_⟩
    rw [Err_http r s req err idf code text hid hc ht, deferredLog_state_w]
  | none =>
    by_cases hnf : err.asNotFounder = some true
    · exact ⟨404, "resource not found", Or.inr (by decide),
        by rw [Err_notFound r s req err idf hid hc hnf]⟩
    · by_cases hex : err.asExister = some true
      · exact ⟨422, "resource exists", Or.inr (by decide),
          by rw [Err_exists r s req err idf hid hc hnf hex]⟩
      · by_cases hcf : err.asConflicter = some true
        · exact ⟨422, "unprocessible entity", Or.inr (by decide),
            by rw [Err_conflict r s req err idf hid hc hnf hex hcf]⟩
        · refine ⟨500, "internal server error", Or.inr (by decide), ?_⟩
          rw [Err_fallback r s req err idf hid hc hnf hex hcf, deferredLog_state_w]

/-- When `Error()` returns, both extractors are set and the error's status
code, if it carries one, is a three-digit code, `Err` returns. -/
theorem Err_returns (r : Responder) (s : State) (req : Request) (err : GoError)
    (idf ipf : Context → String) (text : String)
    (hid : r.requestIDFunc = some idf) (hip : r.clientIPFunc = some ipf)
    (ht : err.Error = some text)
    (hcode : ∀ C, err.asHTTP = some C → 100 ≤ C ∧ C ≤ 999) :
    (Err r s req err).isPanicked = false := by
  cases hc : err.asHTTP with
  | some code =>
    rw [Err_http r s req err idf code text hid hc ht,
      deferredLog_emit r req err _ text ipf _ ht hip, emit_isPanicked]
    exact writeResponse_isPanicked r s _ code _ (hcode code hc).1 (hcode code hc).2
  | none =>
    by_cases hnf : err.asNotFounder = some true
    · rw [Err_notFound r s req err idf hid hc hnf]
      exact writeResponse_isPanicked r s _ 404 _ (by decide) (by decide)
    · by_cases hex : err.asExister = some true
      · rw [Err_exists r s req err idf hid hc hnf hex]
        exact writeResponse_isPanicked r s _ 422 _ (by decide) (by decide)
      · by_cases hcf : err.asConflicter = some true
        · rw [Err_conflict r s req err idf hid hc hnf hex hcf]
          exact writeResponse_isPanicked r s _ 422 _ (by decide) (by decide)
        · rw [Err_fallback r s req err idf hid hc hnf hex hcf,
            deferredLog_emit r req err _ text ipf _ ht hip, emit_isPanicked]
          exact writeResponse_isPanicked r s _ 500 _ (by decide) (by decide)

/-! ### NewResponder -/

theorem foldl_options_set (opts : List ResponderOption) (o : options)
    (hopts : ∀ opt ∈ opts, ResponderOption.provided opt)
    (h1 : o.requestIDFunc.isSome = true) (h2 : o.clientIPFunc.isSome = true) :
    (opts.foldl (fun o opt => opt o) o).requestIDFunc.isSome = true ∧
    (opts.foldl (fun o opt => opt o) o).clientIPFunc.isSome = true := by
  induction opts generalizing o with
  | nil => exact ⟨h1, h2⟩
  | cons opt rest ih =>
    simp only [List.foldl_cons]
    apply ih
    · intro x hx
      exact hopts x (List.mem_cons_of_mem _ hx)
    · rcases hopts opt (List.mem_cons_self _ _) with ⟨b, hb⟩ | ⟨fn, hfn⟩ | ⟨fn, hfn⟩
      · subst hb; simpa [WithLogResponseBodies] using h1
      · subst hfn; cases fn <;> simp [WithRequestIDFunc, h1]
      · subst hfn; cases fn <;> simp [WithClientIPFunc, h1]
    · rcases hopts opt (List.mem_cons_self _ _) with ⟨b, hb⟩ | ⟨fn, hfn⟩ | ⟨fn, hfn⟩
      · subst hb; simpa [WithLogResponseBodies] using h2
      · subst hfn; cases fn <;> simp [WithRequestIDFunc, h2]
      · subst hfn; cases fn <;> simp [WithClientIPFunc, h2]

/-- NewResponder never leaves an extractor nil. -/
theorem NewResponder_extractors (logger : Logger) (opts : List ResponderOption)
    (hopts : ∀ opt ∈ opts, ResponderOption.provided opt) :
    (∃ idf, (NewResponder logger opts).requestIDFunc = some idf) ∧
    (∃ ipf, (NewResponder logger opts).clientIPFunc = some ipf) := by
  have h := foldl_options_set opts
    { logResponseBodies := false, requestIDFunc := some (fun _ => ""),
      clientIPFunc := some (fun _ => "") } hopts rfl rfl
  exact ⟨Option.isSome_iff_exists.mp h.1, Option.isSome_iff_exists.mp h.2⟩

theorem foldl_options_keep (opts : List ResponderOption) (o : options)
    (hopts : ∀ opt ∈ opts, ResponderOption.keepsRequestID opt) :
    (opts.foldl (fun o opt => opt o) o).requestIDFunc = o.requestIDFunc := by
  induction opts generalizing o with
  | nil => rfl
  | cons opt rest ih =>
    simp only [List.foldl_cons]
    rw [ih _ (fun x hx => hopts x (List.mem_cons_of_mem _ hx))]
    rcases hopts opt (List.mem_cons_self _ _) with ⟨b, hb⟩ | hnone | ⟨fn, hfn⟩
    · subst hb; rfl
    · subst hnone; rfl
    · subst hfn; cases fn <;> rfl

/-- Without a request-ID function among the options, the extractor is the
default one. -/
theorem NewResponder_default_requestID (logger : Logger) (opts : List ResponderOption)
    (hopts : ∀ opt ∈ opts, ResponderOption.keepsRequestID opt) :
    (NewResponder logger opts).requestIDFunc = some (fun _ => "") :=
  foldl_options_keep opts _ hopts

/-! ## The claims -/

/-- C2: an error whose only capability is Not-Found, reporting true, is answered
with status 404 and the envelope message "resource not found", and the call
emits no error-severity log record. The responder has a request-ID extractor,
as `NewResponder` builds it, and the transport accepts the body. -/
theorem C2_not_found_only (r : Responder) (s : State) (req : Request) (err : GoError)
    (idf : Context → String)
    (hid : r.requestIDFunc = some idf) (hw : s.w.writeErr = none)
    (hhttp : err.asHTTP = none) (hnf : err.asNotFounder = some true)
    (_hex : err.asExister = none) (_hcf : err.asConflicter = none)
    (_hum : err.asUserMessager = none) :
    (Err r s req err).isPanicked = false ∧
    (Err r s req err).statusLines s = [404] ∧
    (Err r s req err).written s = [(newErr (idf req.ctx) "resource not found").toJson] ∧
    ((Err r s req err).written s).map envelopeMessage = [some "resource not found"] ∧
    (Err r s req err).errorEntries s = [] := by
  rw [Err_notFound r s req err idf hid hhttp hnf]
  obtain ⟨h1, h2, h3, h4⟩ := observe_quiet r s (idf req.ctx) 404
    (newErr (idf req.ctx) "resource not found").toJson (by decide) (by decide) (by decide) hw
  refine ⟨h1, h2, h3, ?_, h4⟩
  rw [h3]
  simp [envelopeMessage_toJson, newErr]

/-- C2 at the test's `notFounder` error on a fresh recorder. -/
theorem C2_not_found_only_witness :
    (Err testResponder testState testRequest notFounder).isPanicked = false ∧
    (Err testResponder testState testRequest notFounder).statusLines testState = [404] ∧
    (Err testResponder testState testRequest notFounder).written testState
      = [(newErr "" "resource not found").toJson] ∧
    ((Err testResponder testState testRequest notFounder).written testState).map
        envelopeMessage = [some "resource not found"] ∧
    (Err testResponder testState testRequest notFounder).errorEntries testState = [] :=
  C2_not_found_only testResponder testState testRequest notFounder (fun _ => "")
    rfl rfl rfl rfl rfl rfl rfl

/-- C3 fails for a status code the transport does not take with a body: on the
test's responder and a fresh recorder, `Err` on `NewHTTPErr(err, 0)` panics in
`WriteHeader` with no status line and no body written, and `Err` on
`NewHTTPErr(err, 204)` writes the status 204, has the envelope refused and
emits two error-severity records. -/
theorem C3_code_without_body :
    zeroCodeErr.asHTTP = some 0 ∧
    (Err testResponder testState testRequest zeroCodeErr).isPanicked = true ∧
    (Err testResponder testState testRequest zeroCodeErr).statusLines testState = [] ∧
    (Err testResponder testState testRequest zeroCodeErr).written testState = [] ∧
    noContentErr.asHTTP = some 204 ∧
    (Err testResponder testState testRequest noContentErr).statusLines testState = [204] ∧
    (Err testResponder testState testRequest noContentErr).written testState = [] ∧
    ((Err testResponder testState testRequest noContentErr).errorEntries testState).length
      = 2 := by
  have hzero := Err_http testResponder testState testRequest zeroCodeErr (fun _ => "") 0
    "dial tcp 10.0.0.7:5432: connection refused" rfl rfl rfl
  have hnc := Err_http testResponder testState testRequest noContentErr (fun _ => "") 204
    "dial tcp 10.0.0.7:5432: connection refused" rfl rfl rfl
  rw [hzero, hnc]
  exact ⟨rfl, rfl, rfl, rfl, rfl, rfl, rfl, rfl⟩

/-- C3 as amended: a status-carrying error with `StatusCode() = C` and
`Error() = T`, where `C` is a three-digit code that allows a body (not 1xx, 204
or 304), is answered with status `C` and envelope message `T`, and exactly one
error-severity record is emitted; and for every `C`, any two status-carrying
errors with the same `C` and `T` have the same outcome, whatever their other
capabilities. The responder has both extractors, as `NewResponder` builds it,
and the transport accepts the body. -/
theorem C3_status_carrying_with_body (r : Responder) (s : State) (req : Request)
    (err : GoError) (idf ipf : Context → String) (C : Int) (T : String)
    (hid : r.requestIDFunc = some idf) (hip : r.clientIPFunc = some ipf)
    (hw : s.w.writeErr = none)
    (hC : err.asHTTP = some C) (hT : err.Error = some T) :
    (100 ≤ C → C ≤ 999 → bodyAllowedForStatus C = true →
      (Err r s req err).isPanicked = false ∧
      (Err r s req err).statusLines s = [C] ∧
      (Err r s req err).written s = [(newErr (idf req.ctx) T).toJson] ∧
      ((Err r s req err).written s).map envelopeMessage = [some T] ∧
      (Err r s req err).errorEntries s
        = [apiResponseError r req T (ipf req.ctx) (idf req.ctx)]) ∧
    (∀ other : GoError, other.asHTTP = some C → other.Error = some T →
      Err r s req other = Err r s req err) := by
  have key : ∀ e : GoError, e.asHTTP = some C → e.Error = some T →
      Err r s req e
        = (writeResponse r s (idf req.ctx) C (some (newErr (idf req.ctx) T).toJson)).emit
            (apiResponseError r req T (ipf req.ctx) (idf req.ctx)) := by
    intro e h1 h2
    rw [Err_http r s req e idf C T hid h1 h2, deferredLog_emit r req e _ T ipf _ h2 hip]
  refine ⟨?_, ?_⟩
  · intro h1 h2 hb
    rw [key err hC hT]
    obtain ⟨a, b, c, d⟩ := observe_logged r s req (idf req.ctx) T (ipf req.ctx) C
      (newErr (idf req.ctx) T).toJson h1 h2 hb hw
    refine ⟨a, b, c, ?_, d⟩
    rw [c]
    simp [envelopeMessage_toJson, newErr]
  · intro other h1 h2
    rw [key err hC hT, key other h1 h2]

/-- C3 as amended, at an error that has every capability with status 418, and
at an `HTTPErr` with the same status and text. -/
theorem C3_status_carrying_with_body_witness :
    (Err testResponder testState testRequest teapotErr).statusLines testState = [418] ∧
    ((Err testResponder testState testRequest teapotErr).written testState).map
        envelopeMessage = [some "short and stout"] ∧
    ((Err testResponder testState testRequest teapotErr).errorEntries testState).length = 1 ∧
    Err testResponder testState testRequest (NewHTTPErr (.wrapError "short and stout" .nil) 418)
      = Err testResponder testState testRequest teapotErr :=
  have h := C3_status_carrying_with_body testResponder testState testRequest teapotErr
    (fun _ => "") (fun _ => "") 418 "short and stout" rfl rfl rfl rfl rfl
  have h1 := h.1 (by decide) (by decide) (by decide)
  ⟨h1.2.1, h1.2.2.2.1, by rw [h1.2.2.2.2]; rfl, h.2 _ rfl rfl⟩

/-- C4: an error with none of the capabilities is answered with status 500 and
the envelope message "internal server error"; what reaches the transport is the
same for every such error, whatever its text, and the one error-severity record
emitted carries the text under the key "error". The responder has both
extractors, as `NewResponder` builds it, and the transport accepts the body. -/
theorem C4_unclassified (r : Responder) (s : State) (req : Request) (err : GoError)
    (idf ipf : Context → String) (T : String)
    (hid : r.requestIDFunc = some idf) (hip : r.clientIPFunc = some ipf)
    (hw : s.w.writeErr = none)
    (hT : err.Error = some T)
    (hhttp : err.asHTTP = none) (hnf : err.asNotFounder = none)
    (hex : err.asExister = none) (hcf : err.asConflicter = none)
    (_hum : err.asUserMessager = none) :
    (Err r s req err).isPanicked = false ∧
    (Err r s req err).statusLines s = [500] ∧
    (Err r s req err).written s
      = [(newErr (idf req.ctx) "internal server error").toJson] ∧
    ((Err r s req err).written s).map envelopeMessage = [some "internal server error"] ∧
    (∀ (other : GoError) (T2 : String), other.Error = some T2 →
      other.asHTTP = none → other.asNotFounder = none → other.asExister = none →
      other.asConflicter = none →
      (Err r s req other).state.w = (Err r s req err).state.w) ∧
    (Err r s req err).errorEntries s
      = [apiResponseError r req T (ipf req.ctx) (idf req.ctx)] ∧
    (∀ e ∈ (Err r s req err).errorEntries s, ("error", LogValue.str T) ∈ e.keyvals) := by
  have key : ∀ (e : GoError) (t : String), e.Error = some t →
      e.asHTTP = none → e.asNotFounder = none → e.asExister = none →
      e.asConflicter = none →
      Err r s req e
        = (writeResponse r s (idf req.ctx) 500
            (some (newErr (idf req.ctx) "internal server error").toJson)).emit
            (apiResponseError r req t (ipf req.ctx) (idf req.ctx)) := by
    intro e t h0 h1 h2 h3 h4
    rw [Err_fallback r s req e idf hid h1 (by simp [h2]) (by simp [h3]) (by simp [h4]),
      deferredLog_emit r req e _ t ipf _ h0 hip]
  have hk := key err T hT hhttp hnf hex hcf
  obtain ⟨a, b, c, d⟩ := observe_logged r s req (idf req.ctx) T (ipf req.ctx) 500
    (newErr (idf req.ctx) "internal server error").toJson (by decide) (by decide)
    (by decide) hw
  rw [← hk] at a b c d
  refine ⟨a, b, c, ?_, ?_, d, ?_⟩
  · rw [c]
    simp [envelopeMessage_toJson, newErr]
  · intro other T2 h0 h1 h2 h3 h4
    rw [hk, key other T2 h0 h1 h2 h3 h4, emit_state_w, emit_state_w]
  · intro e he
    rw [d] at he
    simp at he
    subst he
    simp [apiResponseError, Logger.Err]

/-- C4 at a plain error on the test's responder, compared with the wrapped
error that `fmt.Errorf` returns. -/
theorem C4_unclassified_witness :
    (Err testResponder testState testRequest plainErr).statusLines testState = [500] ∧
    ((Err testResponder testState testRequest plainErr).written testState).map
        envelopeMessage = [some "internal server error"] ∧
    (Err testResponder testState testRequest
        (fmtErrorf "failed to encode response object: " unsupportedType)).state.w
      = (Err testResponder testState testRequest plainErr).state.w ∧
    (Err testResponder testState testRequest plainErr).errorEntries testState
      = [apiResponseError testResponder testRequest
          "dial tcp 10.0.0.7:5432: connection refused" "" ""] :=
  have h := C4_unclassified testResponder testState testRequest plainErr
    (fun _ => "") (fun _ => "") "dial tcp 10.0.0.7:5432: connection refused"
    rfl rfl rfl rfl rfl rfl rfl rfl rfl
  ⟨h.2.1, h.2.2.2.1, h.2.2.2.2.1 _ _ rfl rfl rfl rfl rfl, h.2.2.2.2.2.1⟩

/-- C7: an error that is not status-carrying and not Not-Found-true, reporting
both `Exists() = true` and `Conflict() = true`, is answered as Exists: status 422,
envelope message "resource exists", no error-severity record; the message of
the Conflict branch is not written. The responder has a request-ID extractor,
as `NewResponder` builds it, and the transport accepts the body. -/
theorem C7_exists_before_conflict (r : Responder) (s : State) (req : Request)
    (err : GoError) (idf : Context → String)
    (hid : r.requestIDFunc = some idf) (hw : s.w.writeErr = none)
    (hhttp : err.asHTTP = none) (hnf : err.asNotFounder ≠ some true)
    (hex : err.asExister = some true) (_hcf : err.asConflicter = some true) :
    (Err r s req err).isPanicked = false ∧
    (Err r s req err).statusLines s = [422] ∧
    (Err r s req err).written s = [(newErr (idf req.ctx) "resource exists").toJson] ∧
    ((Err r s req err).written s).map envelopeMessage = [some "resource exists"] ∧
    (Err r s req err).errorEntries s = [] ∧
    (∀ doc ∈ (Err r s req err).written s,
      envelopeMessage doc ≠ some "unprocessible entity" ∧
      envelopeMessage doc ≠ some "unprocessable entity") := by
  rw [Err_exists r s req err idf hid hhttp hnf hex]
  obtain ⟨h1, h2, h3, h4⟩ := observe_quiet r s (idf req.ctx) 422
    (newErr (idf req.ctx) "resource exists").toJson (by decide) (by decide) (by decide) hw
  refine ⟨h1, h2, h3, ?_, h4, ?_⟩
  · rw [h3]
    simp [envelopeMessage_toJson, newErr]
  · intro doc hdoc
    rw [h3] at hdoc
    simp at hdoc
    subst hdoc
    simp [envelopeMessage_toJson, newErr]

/-- C7 at an error reporting both Exists and Conflict. -/
theorem C7_exists_before_conflict_witness :
    (Err testResponder testState testRequest existsConflictErr).statusLines testState
      = [422] ∧
    ((Err testResponder testState testRequest existsConflictErr).written testState).map
        envelopeMessage = [some "resource exists"] ∧
    (Err testResponder testState testRequest existsConflictErr).errorEntries testState = [] :=
  have h := C7_exists_before_conflict testResponder testState testRequest
    existsConflictErr (fun _ => "") rfl rfl rfl (by decide) rfl rfl
  ⟨h.2.1, h.2.2.2.1, h.2.2.2.2.1⟩

/-- C10 fails for a status that is not a three-digit code: on the test's
responder and a fresh recorder, `With` with status 0 and the nil payload panics
in `WriteHeader`, and no status line is written. -/
theorem C10_status_zero_panics :
    (With testResponder testState testRequest 0 .nil).isPanicked = true ∧
    (With testResponder testState testRequest 0 .nil).statusLines testState = [] := by
  rw [With_of_ok testResponder testState testRequest 0 .nil none (fun _ => "") rfl rfl]
  exact ⟨rfl, rfl⟩

/-- C10 as amended: for every status in 100..999, `With` on the nil payload
does not run the encoder (the buffer stays empty), is the write step on the
empty buffer, returns, writes exactly the given status, no body and the JSON
Content-Type, and emits no error record. -/
theorem C10_nil_payload (r : Responder) (s : State) (req : Request) (status : Int)
    (idf : Context → String) (hid : r.requestIDFunc = some idf)
    (h1 : 100 ≤ status) (h2 : status ≤ 999) :
    encodeData .nil = .ok none ∧
    With r s req status .nil = writeResponse r s (idf req.ctx) status none ∧
    (With r s req status .nil).isPanicked = false ∧
    (With r s req status .nil).statusLines s = [status] ∧
    (With r s req status .nil).written s = [] ∧
    (With r s req status .nil).contentType = some "application/json; charset=utf-8" ∧
    (With r s req status .nil).errorEntries s = [] := by
  have hrun := With_of_ok r s req status .nil none idf rfl hid
  rw [hrun]
  refine ⟨rfl, rfl, writeResponse_isPanicked r s _ status _ h1 h2,
    statusLines_of_transport _ r s _ status _ h1 h2 rfl,
    written_of_transport_empty _ r s _ status rfl,
    contentType_of_transport _ r s _ status _ rfl, ?_⟩
  obtain ⟨entry, hlevel, hlog⟩ := writeResponse_log_empty r s (idf req.ctx) status h1 h2
  exact errorEntries_of_log _ s entry hlevel hlog

/-- C10 as amended, at status 204 on the test's responder and a fresh recorder. -/
theorem C10_nil_payload_witness :
    (With testResponder testState testRequest 204 .nil).isPanicked = false ∧
    (With testResponder testState testRequest 204 .nil).statusLines testState = [204] ∧
    (With testResponder testState testRequest 204 .nil).written testState = [] ∧
    (With testResponder testState testRequest 204 .nil).contentType
      = some "application/json; charset=utf-8" ∧
    (With testResponder testState testRequest 204 .nil).errorEntries testState = [] :=
  (C10_nil_payload testResponder testState testRequest 204 (fun _ => "") rfl
    (by decide) (by decide)).2.2

/-- C9: when the encoder rejects the payload, `With` is one call of `Err` on the
wrapped encoder error, and that call is the deferred block run on the write
step of its nested `With` on the envelope. The response is the unclassified one
(status 500 written once, whatever status was asked for, envelope message
"internal server error"), one error record is emitted, and what reaches the
transport is the same for every rejected payload. A rejected payload is never
nil, as the encoder is not run on nil. The responder has both extractors, as
`NewResponder` builds it, and the transport accepts the body. -/
theorem C9_encode_failure (r : Responder) (s : State) (req : Request) (status : Int)
    (data : Payload) (cause : ErrMethods) (idf ipf : Context → String)
    (hid : r.requestIDFunc = some idf) (hip : r.clientIPFunc = some ipf)
    (hw : s.w.writeErr = none) (henc : encodeData data = .error cause) :
    With r s req status data
      = Err r s req (fmtErrorf "failed to encode response object: " cause) ∧
    Err r s req (fmtErrorf "failed to encode response object: " cause)
      = deferredLog r req (fmtErrorf "failed to encode response object: " cause)
          (idf req.ctx)
          (writeResponse r s (idf req.ctx) 500
            (some (newErr (idf req.ctx) "internal server error").toJson)) true ∧
    (With r s req status data).isPanicked = false ∧
    (With r s req status data).statusLines s = [500] ∧
    (With r s req status data).written s
      = [(newErr (idf req.ctx) "internal server error").toJson] ∧
    ((With r s req status data).written s).map envelopeMessage
      = [some "internal server error"] ∧
    ((With r s req status data).written s).map envelopeRequestID
      = [some (idf req.ctx)] ∧
    (With r s req status data).errorEntries s
      = [apiResponseError r req ("failed to encode response object: " ++ cause.Error)
          (ipf req.ctx) (idf req.ctx)] ∧
    (∀ (status2 : Int) (data2 : Payload) (cause2 : ErrMethods),
      encodeData data2 = .error cause2 →
      (With r s req status2 data2).state.w = (With r s req status data).state.w) := by
  have hfall : ∀ c : ErrMethods,
      Err r s req (fmtErrorf "failed to encode response object: " c)
        = deferredLog r req (fmtErrorf "failed to encode response object: " c)
            (idf req.ctx)
            (writeResponse r s (idf req.ctx) 500
              (some (newErr (idf req.ctx) "internal server error").toJson)) true := by
    intro c
    exact Err_fallback r s req _ idf hid rfl (by simp [fmtErrorf, GoError.asNotFounder])
      (by simp [fmtErrorf, GoError.asExister]) (by simp [fmtErrorf, GoError.asConflicter])
  have key : ∀ (st : Int) (d : Payload) (c : ErrMethods), encodeData d = .error c →
      With r s req st d
        = (writeResponse r s (idf req.ctx) 500
            (some (newErr (idf req.ctx) "internal server error").toJson)).emit
            (apiResponseError r req ("failed to encode response object: " ++ c.Error)
              (ipf req.ctx) (idf req.ctx)) := by
    intro st d c hd
    rw [With_of_error r s req st d c hd, hfall c,
      deferredLog_emit r req (fmtErrorf "failed to encode response object: " c) _
        ("failed to encode response object: " ++ c.Error) ipf _ rfl hip]
  have hk := key status data cause henc
  obtain ⟨a, b, c, d⟩ := observe_logged r s req (idf req.ctx)
    ("failed to encode response object: " ++ cause.Error) (ipf req.ctx) 500
    (newErr (idf req.ctx) "internal server error").toJson (by decide) (by decide)
    (by decide) hw
  rw [← hk] at a b c d
  refine ⟨With_of_error r s req status data cause henc, hfall cause, a, b, c, ?_, ?_, d, ?_⟩
  · rw [c]
    simp [envelopeMessage_toJson, newErr]
  · rw [c]
    simp [envelopeRequestID_toJson, newErr]
  · intro status2 data2 cause2 h2
    rw [hk, key status2 data2 cause2 h2, emit_state_w, emit_state_w]

/-- C9 at a channel value sent with status 200: the encoder's error carries a
status code and reports not-found, and the response is still the 500 one. -/
theorem C9_encode_failure_witness :
    (With testResponder testState testRequest 200 (.unencodable unsupportedType)).isPanicked
      = false ∧
    (With testResponder testState testRequest 200 (.unencodable unsupportedType)).statusLines
      testState = [500] ∧
    ((With testResponder testState testRequest 200 (.unencodable unsupportedType)).written
      testState).map envelopeMessage = [some "internal server error"] ∧
    ((With testResponder testState testRequest 200
      (.unencodable unsupportedType)).errorEntries testState).length = 1 :=
  have h := C9_encode_failure testResponder testState testRequest 200
    (.unencodable unsupportedType) unsupportedType (fun _ => "") (fun _ => "")
    rfl rfl rfl rfl
  ⟨h.2.2.1, h.2.2.2.1, h.2.2.2.2.2.1, by rw [h.2.2.2.2.2.2.2.1]; rfl⟩

/-- C1: the test's `notFounderMessage` error, which is Not-Found-true and has a
`UserMessage`, is answered with status 404 and the generic message: `Err` does
not consult `UserMessage`, and the test's expected message is not the one
written. -/
theorem C1_user_message_not_written :
    notFounderMessage.asHTTP = none ∧
    notFounderMessage.asNotFounder = some true ∧
    notFounderMessage.asUserMessager = some "not found custom message" ∧
    (Err testResponder testState testRequest notFounderMessage).statusLines testState
      = [404] ∧
    ((Err testResponder testState testRequest notFounderMessage).written testState).map
        envelopeMessage = [some "resource not found"] ∧
    ((Err testResponder testState testRequest notFounderMessage).written testState).map
        envelopeMessage ≠ [notFounderMessage.asUserMessager] := by
  have hrun := Err_notFound testResponder testState testRequest notFounderMessage
    (fun _ => "") rfl rfl rfl
  obtain ⟨_, h2, h3, _⟩ := observe_quiet testResponder testState "" 404
    (newErr "" "resource not found").toJson (by decide) (by decide) (by decide) rfl
  have hmsg : ((Err testResponder testState testRequest notFounderMessage).written
      testState).map envelopeMessage = [some "resource not found"] := by
    rw [hrun]
    show List.map envelopeMessage
      ((writeResponse testResponder testState "" 404
        (some (newErr "" "resource not found").toJson)).written testState) = _
    rw [h3]
    simp [envelopeMessage_toJson, newErr]
  refine ⟨rfl, rfl, rfl, ?_, hmsg, ?_⟩
  · rw [hrun]
    exact h2
  · rw [hmsg]
    simp [notFounderMessage, GoError.asUserMessager]

/-- C6: an error whose only capability is Conflict, reporting true, is answered
with status 422 and no error record, and the envelope message written is
"unprocessible entity", which is not the claim's "unprocessable entity". -/
theorem C6_conflict_message_spelling :
    conflictErr.asHTTP = none ∧
    conflictErr.asConflicter = some true ∧
    (Err testResponder testState testRequest conflictErr).statusLines testState = [422] ∧
    (Err testResponder testState testRequest conflictErr).errorEntries testState = [] ∧
    ((Err testResponder testState testRequest conflictErr).written testState).map
        envelopeMessage = [some "unprocessible entity"] ∧
    ((Err testResponder testState testRequest conflictErr).written testState).map
        envelopeMessage ≠ [some "unprocessable entity"] := by
  have hrun := Err_conflict testResponder testState testRequest conflictErr
    (fun _ => "") rfl rfl (by decide) (by decide) rfl
  obtain ⟨_, h2, h3, h4⟩ := observe_quiet testResponder testState "" 422
    (newErr "" "unprocessible entity").toJson (by decide) (by decide) (by decide) rfl
  have hmsg : ((Err testResponder testState testRequest conflictErr).written
      testState).map envelopeMessage = [some "unprocessible entity"] := by
    rw [hrun]
    show List.map envelopeMessage
      ((writeResponse testResponder testState "" 422
        (some (newErr "" "unprocessible entity").toJson)).written testState) = _
    rw [h3]
    simp [envelopeMessage_toJson, newErr]
  refine ⟨rfl, rfl, ?_, ?_, hmsg, ?_⟩
  · rw [hrun]
    exact h2
  · rw [hrun]
    exact h4
  · rw [hmsg]
    decide

/-- C8: for every responder, request and error, each envelope `Err` writes has
as `request_id` the value the responder's extractor returns for the request's
context; an envelope is written whenever `Error()` returns, the transport
accepts it and the error's status code, if it carries one, is a three-digit
code that allows a body; and a responder built by `NewResponder` from options
that set no request-ID function (`WithRequestIDFunc(nil)` included) has the
default extractor, so the `request_id` is the empty string. -/
theorem C8_request_id (r : Responder) (s : State) (req : Request) (err : GoError) :
    (∀ doc ∈ (Err r s req err).written s,
      ∃ idf, r.requestIDFunc = some idf ∧ envelopeRequestID doc = some (idf req.ctx)) ∧
    (∀ (idf : Context → String) (T : String), r.requestIDFunc = some idf →
      err.Error = some T → s.w.writeErr = none →
      (∀ C, err.asHTTP = some C → 100 ≤ C ∧ C ≤ 999 ∧ bodyAllowedForStatus C = true) →
      ((Err r s req err).written s).map envelopeRequestID = [some (idf req.ctx)]) ∧
    (∀ (logger : Logger) (opts : List ResponderOption),
      (∀ opt ∈ opts, ResponderOption.keepsRequestID opt) →
      (NewResponder logger opts).requestIDFunc = some (fun _ => "") ∧
      ∀ doc ∈ (Err (NewResponder logger opts) s req err).written s,
        envelopeRequestID doc = some "") := by
  have main : ∀ (r2 : Responder) (idf : Context → String), r2.requestIDFunc = some idf →
      ∀ doc ∈ (Err r2 s req err).written s,
        envelopeRequestID doc = some (idf req.ctx) := by
    intro r2 idf hid doc hdoc
    rcases Err_transport r2 s req err idf hid with h | ⟨status, msg, h⟩
    · simp [Outcome.written, h] at hdoc
    · rcases written_of_transport _ r2 s _ status _ h with hw | hw
      · rw [hw] at hdoc
        simp at hdoc
        subst hdoc
        simp [envelopeRequestID_toJson, newErr]
      · rw [hw] at hdoc
        simp at hdoc
  refine ⟨?_, ?_, ?_⟩
  · intro doc hdoc
    cases hid : r.requestIDFunc with
    | none =>
      rw [Err_nil_func r s req err hid] at hdoc
      simp [Outcome.written, Outcome.state] at hdoc
    | some idf => exact ⟨idf, rfl, main r idf hid doc hdoc⟩
  · intro idf T hid hT hw hcode
    obtain ⟨status, msg, hst, h⟩ := Err_transport_of_text r s req err idf T hid hT
    have hvalid : 100 ≤ status ∧ status ≤ 999 ∧ bodyAllowedForStatus status = true := by
      rcases hst with hst | hst
      · exact hcode status hst
      · exact hst
    rw [written_of_transport_accepting _ r s _ status _ hvalid.1 hvalid.2.1 hvalid.2.2 hw h]
    simp [envelopeRequestID_toJson, newErr]
  · intro logger opts hopts
    have hdef := NewResponder_default_requestID logger opts hopts
    exact ⟨hdef, fun doc hdoc => main _ _ hdef doc hdoc⟩

/-- C8 at a responder whose extractor reads the context, and at one built with
`WithRequestIDFunc(nil)`. -/
theorem C8_request_id_witness :
    ((Err tracingResponder testState tracedRequest plainErr).written testState).map
        envelopeRequestID = [some "req-42"] ∧
    ((Err (NewResponder { bound := [] } [WithRequestIDFunc none]) testState tracedRequest
        plainErr).written testState).map envelopeRequestID = [some ""] :=
  ⟨(C8_request_id tracingResponder testState tracedRequest plainErr).2.1
      (fun ctx => (ctx.values.lookup "request_id").getD "") _ rfl rfl rfl
      (fun _ h => nomatch h),
    (C8_request_id (NewResponder { bound := [] } [WithRequestIDFunc none]) testState
      tracedRequest plainErr).2.1 (fun _ => "") _
      ((C8_request_id tracingResponder testState tracedRequest plainErr).2.2
        { bound := [] } [WithRequestIDFunc none]
        (by intro opt hopt; simp at hopt; subst hopt; exact Or.inr (Or.inl rfl))).1
      rfl rfl (fun _ h => nomatch h)⟩

/-- C5 fails: on the test's responder and a fresh recorder, `Err` on the nil
error writes the 500 response and then panics in the deferred block, where
`err.Error()` is called on the nil interface; `Err` on `NewHTTPErr(nil, 400)`
panics before anything is written; and `Err` on `NewHTTPErr(err, 0)` panics in
`WriteHeader`. -/
theorem C5_nil_error_panics :
    (Err testResponder testState testRequest .nil).isPanicked = true ∧
    (Err testResponder testState testRequest .nil).statusLines testState = [500] ∧
    (Err testResponder testState testRequest (NewHTTPErr .nil 400)).isPanicked = true ∧
    (Err testResponder testState testRequest (NewHTTPErr .nil 400)).statusLines testState
      = [] ∧
    (Err testResponder testState testRequest (NewHTTPErr plainErr 0)).isPanicked = true := by
  have hnil := Err_fallback testResponder testState testRequest .nil (fun _ => "") rfl rfl
    (by decide) (by decide) (by decide)
  have hhttp : Err testResponder testState testRequest (NewHTTPErr .nil 400)
      = .panicked testState :=
    Err_http_panic testResponder testState testRequest _ (fun _ => "") 400 rfl rfl rfl
  have hzero := Err_http testResponder testState testRequest (NewHTTPErr plainErr 0)
    (fun _ => "") 0 "dial tcp 10.0.0.7:5432: connection refused" rfl rfl rfl
  rw [hnil, hhttp, hzero]
  exact ⟨rfl, rfl, rfl, rfl, rfl⟩

/-- C5 as amended: on a responder built by `NewResponder` from the provided
options, `Err` on an error whose `Error()` returns and whose status code, if it
carries one, is in 100..999, and `With` on any payload with a status in
100..999, return without panicking, write the status line once and set the JSON
Content-Type; `Err` writes one document when the transport accepts it and the
status allows a body, `With` at most one. -/
theorem C5_returns_when_Error_returns (logger : Logger) (opts : List ResponderOption)
    (s : State) (req : Request)
    (hopts : ∀ opt ∈ opts, ResponderOption.provided opt) :
    (∀ (err : GoError) (T : String), err.Error = some T →
      (∀ C, err.asHTTP = some C → 100 ≤ C ∧ C ≤ 999) →
      (Err (NewResponder logger opts) s req err).isPanicked = false ∧
      ((Err (NewResponder logger opts) s req err).statusLines s).length = 1 ∧
      (Err (NewResponder logger opts) s req err).contentType
        = some "application/json; charset=utf-8" ∧
      (s.w.writeErr = none →
        (∀ C, err.asHTTP = some C → bodyAllowedForStatus C = true) →
        ((Err (NewResponder logger opts) s req err).written s).length = 1)) ∧
    (∀ (status : Int) (data : Payload), 100 ≤ status → status ≤ 999 →
      (With (NewResponder logger opts) s req status data).isPanicked = false ∧
      ((With (NewResponder logger opts) s req status data).statusLines s).length = 1 ∧
      (With (NewResponder logger opts) s req status data).contentType
        = some "application/json; charset=utf-8" ∧
      ((With (NewResponder logger opts) s req status data).written s).length ≤ 1) := by
  obtain ⟨⟨idf, hid⟩, ⟨ipf, hip⟩⟩ := NewResponder_extractors logger opts hopts
  have herr : ∀ (err : GoError) (T : String), err.Error = some T →
      (∀ C, err.asHTTP = some C → 100 ≤ C ∧ C ≤ 999) →
      (Err (NewResponder logger opts) s req err).isPanicked = false ∧
      ((Err (NewResponder logger opts) s req err).statusLines s).length = 1 ∧
      (Err (NewResponder logger opts) s req err).contentType
        = some "application/json; charset=utf-8" ∧
      ((Err (NewResponder logger opts) s req err).written s).length ≤ 1 ∧
      (s.w.writeErr = none →
        (∀ C, err.asHTTP = some C → bodyAllowedForStatus C = true) →
        ((Err (NewResponder logger opts) s req err).written s).length = 1) := by
    intro err T hT hcode
    obtain ⟨status, msg, hst, h⟩ := Err_transport_of_text _ s req err idf T hid hT
    have hvalid : 100 ≤ status ∧ status ≤ 999 := by
      rcases hst with hst | hst
      · exact hcode status hst
      · exact ⟨hst.1, hst.2.1⟩
    refine ⟨Err_returns _ s req err idf ipf T hid hip hT hcode, ?_, ?_, ?_, ?_⟩
    · rw [statusLines_of_transport _ _ s _ status _ hvalid.1 hvalid.2 h]; rfl
    · exact contentType_of_transport _ _ s _ status _ h
    · rcases written_of_transport _ _ s _ status _ h with hw | hw <;> simp [hw]
    · intro hw hbody
      have hb : bodyAllowedForStatus status = true := by
        rcases hst with hst | hst
        · exact hbody status hst
        · exact hst.2.2
      rw [written_of_transport_accepting _ _ s _ status _ hvalid.1 hvalid.2 hb hw h]; rfl
  refine ⟨fun err T hT hcode => ⟨(herr err T hT hcode).1, (herr err T hT hcode).2.1,
    (herr err T hT hcode).2.2.1, (herr err T hT hcode).2.2.2.2⟩, ?_⟩
  intro status data h1 h2
  cases henc : encodeData data with
  | error cause =>
    rw [With_of_error _ s req status data cause henc]
    have h := herr (fmtErrorf "failed to encode response object: " cause) _ rfl
      (fun _ hC => nomatch hC)
    exact ⟨h.1, h.2.1, h.2.2.1, h.2.2.2.1⟩
  | ok buf =>
    rw [With_of_ok _ s req status data buf idf henc hid]
    refine ⟨writeResponse_isPanicked _ s _ status _ h1 h2, ?_,
      contentType_of_transport _ _ s _ status _ rfl, ?_⟩
    · rw [statusLines_of_transport _ _ s _ status _ h1 h2 rfl]; rfl
    · cases buf with
      | none => rw [written_of_transport_empty _ _ s _ status rfl]; simp
      | some doc =>
        rcases written_of_transport
          (writeResponse (NewResponder logger opts) s (idf req.ctx) status (some doc))
          (NewResponder logger opts) s (idf req.ctx) status doc rfl with hw | hw <;>
          simp [hw]

/-- C5 as amended, at the test's responder with a plain error and with a
payload the encoder rejects. -/
theorem C5_returns_when_Error_returns_witness :
    (Err (NewResponder { bound := [] } []) testState testRequest plainErr).isPanicked
      = false ∧
    ((Err (NewResponder { bound := [] } []) testState testRequest plainErr).written
      testState).length = 1 ∧
    (With (NewResponder { bound := [] } []) testState testRequest 200
      (.unencodable unsupportedType)).isPanicked = false :=
  have h := C5_returns_when_Error_returns { bound := [] } [] testState testRequest
    (by intro opt hopt; simp at hopt)
  ⟨(h.1 plainErr _ rfl (fun _ hC => nomatch hC)).1,
    (h.1 plainErr _ rfl (fun _ hC => nomatch hC)).2.2.2 rfl (fun _ hC => nomatch hC),
    (h.2 200 (.unencodable unsupportedType) (by decide) (by decide)).1⟩

end Api
